import Mathlib

/-
Verification of the drone-sim command resolution and dispatch pipeline
(services/llm/http_service.py and services/llm/main.py).

The Python functions are shallowly embedded as Lean definitions.  Network
calls to external collaborators (the Unity gaze-history endpoint and the
agent command endpoint) are modelled by oracle structures whose fields give,
for each request, the transport-level outcome the Python code would observe
(HTTP 200 with a parsed body, a non-200 status, or a raised
requests exception covering connection failures and timeouts).  Positions
are modelled with rationals in place of Python floats; Python strings are
Lean strings, with str.lower / str.strip / substring tests / str.split
modelled by the py-prefixed helpers below.
-/

set_option maxRecDepth 4000

namespace DroneSim

/-! ### Python string helpers -/

/-- Python str.lower (ASCII behaviour), mapping each character to its
lowercase form. -/
def pyLower (s : String) : String := String.mk (s.data.map Char.toLower)

/-- Python str.strip with no argument: drop leading and trailing
whitespace. -/
def pyStrip (s : String) : String :=
  String.mk (((s.data.dropWhile Char.isWhitespace).reverse.dropWhile Char.isWhitespace).reverse)

/-- Does the first list start with the second one? -/
def startsWithL : List Char → List Char → Bool
  | _, [] => true
  | [], _ :: _ => false
  | a :: as, b :: bs => a == b && startsWithL as bs

/-- Python substring test on char lists: does some tail of the first list
start with the second? -/
def containsL : List Char → List Char → Bool
  | [], sub => sub.isEmpty
  | s@(_ :: rest), sub => startsWithL s sub || containsL rest sub

/-- Python substring test: `containsStr s sub` models `sub in s`. -/
def containsStr (s sub : String) : Bool := containsL s.data sub.data

/-- Helper for `splitWs`: accumulate the current (reversed) token. -/
def splitWsAux : List Char → List Char → List String
  | [], acc => if acc.isEmpty then [] else [String.mk acc.reverse]
  | c :: cs, acc =>
    if c.isWhitespace then
      if acc.isEmpty then splitWsAux cs [] else String.mk acc.reverse :: splitWsAux cs []
    else splitWsAux cs (c :: acc)

/-- Python str.split with no argument: split on whitespace runs,
dropping empty tokens. -/
def splitWs (s : String) : List String := splitWsAux s.data []

/-- A single-quote character as a string, used in error messages. -/
def sq : String := String.mk [Char.ofNat 39]

/-! ### Data model

An observed object from the gaze history.  Payloads whose position cannot
be extracted by `_extract_position` (missing or malformed coordinates) are
modelled with `position = none`. -/

structure Pos where
  x : ℚ
  y : ℚ
  z : ℚ
  deriving DecidableEq

structure GObj where
  name : String
  tag : String
  position : Option Pos
  deriving DecidableEq

/-- Parsed JSON body of a 200 response from a gaze-history query:
either an explicit found=false marker, a payload object, or unparseable
JSON. -/
inductive Body where
  | jsonNotFound
  | jsonObj (o : GObj)
  | badJson
  deriving DecidableEq

/-- Transport outcome of one gaze-history query (by tag or by name):
HTTP 200 with a body, a non-200 status, or a requests exception
(connection failure or timeout). -/
inductive TagResp where
  | ok (b : Body)
  | errStatus (code : Nat)
  | exn
  deriving DecidableEq

/-- Transport outcome of a gaze_history_recent query: HTTP 200 with a
found flag and an object list, a non-200 status, or a requests
exception. -/
inductive RecentResp where
  | ok (found : Bool) (objects : List GObj)
  | errStatus (code : Nat)
  | exn
  deriving DecidableEq

/-- Oracle for the Unity gaze-history endpoint: the transport outcome each
query would observe during this resolution. -/
structure Env where
  tagResp : String → TagResp
  nameResp : String → TagResp
  recentResp : RecentResp

/-- A command string as sent to the agent: either a plain command string,
or the navigate_to_position string built by the f-string
"navigate_to_position:{tx},{ty},{tz},{ox},{oy},{oz}" — modelled as a
constructor carrying the six comma-separated numeric fields in order. -/
inductive Cmd where
  | plain (s : String)
  | navPos (tx ty tz ox oy oz : ℚ)
  deriving DecidableEq

/-! ### Gaze history query wrappers (http_service.py) -/

/-- query_gaze_history: None on exception, non-200, unparseable JSON or
found=false; otherwise the payload. -/
def query_gaze_history : TagResp → Option GObj
  | .ok (.jsonObj o) => some o
  | .ok .jsonNotFound => none
  | .ok .badJson => none
  | .errStatus _ => none
  | .exn => none

/-- query_gaze_history_by_name: identical handling to query_gaze_history. -/
def query_gaze_history_by_name (r : TagResp) : Option GObj :=
  query_gaze_history r

/-- get_recent_gaze_history: the object list when HTTP 200 and found is
true, otherwise the empty list (also on exception or non-200). -/
def get_recent_gaze_history : RecentResp → List GObj
  | .ok true objects => objects
  | .ok false _ => []
  | .errStatus _ => []
  | .exn => []

/-- _extract_position: the position of the payload, if one of the
recognised shapes carries x, y and z. -/
def extract_position (g : GObj) : Option Pos := g.position

/-- calculate_navigation_position: offset the object position by
offset_distance along x, same height.  The Python default
offset_distance=5.0 is passed explicitly at the call sites. -/
def calculate_navigation_position (object_position : Pos) (offset_distance : ℚ) : Pos :=
  { x := object_position.x + offset_distance
    y := object_position.y
    z := object_position.z }

/-- create_estimated_navigation_command: disabled, always returns None. -/
def create_estimated_navigation_command (_object_identifier : String)
    (_command_type : String) : Option Cmd :=
  none

/-! ### Fuzzy matching (third fallback stage of navigate_to_previous) -/

/-- The fuzzy score of one candidate object against the (already
lowercased) type text `ot`. -/
def fuzzyScore (ot : String) (o : GObj) : Nat :=
  let name := pyLower o.name
  let tag := pyLower o.tag
  (if containsStr name ot then 3 else 0) +
    (if containsStr tag ot then 2 else 0) +
    ((splitWs ot).filter (fun t => containsStr name t)).length

/-- The maximum fuzzy score over a candidate list (0 when empty). -/
def maxScore (ot : String) : List GObj → Nat
  | [] => 0
  | o :: os => max (fuzzyScore ot o) (maxScore ot os)

/-- The best/best_score loop: update the pair whenever the score strictly
exceeds the best score so far. -/
def bestLoop (ot : String) : List GObj → Option GObj × Nat → Option GObj × Nat
  | [], acc => acc
  | o :: os, acc =>
    bestLoop ot os (if acc.2 < fuzzyScore ot o then (some o, fuzzyScore ot o) else acc)

/-- The fuzzy selection: run the loop from (None, 0) and keep the best
candidate only when its score reaches the threshold 3. -/
def selectFuzzy (ot : String) (recent : List GObj) : Option GObj :=
  let r := bestLoop ot recent (none, 0)
  if 3 ≤ r.2 then r.1 else none

/-! ### Navigation resolver (process_navigation_command) -/

/-- The fixed synonym-to-tag table of the resolver. -/
def synonyms_to_tag : List (String × String) :=
  [("human", "Person"), ("person", "Person"), ("people", "Person"),
   ("woman", "Person"), ("female", "Person"), ("man", "Person"),
   ("male", "Person"), ("boy", "Person"), ("girl", "Person"),
   ("elder", "Person"), ("old", "Person")]

/-- The synonym fallback: the tag mapped from the first whitespace token of
the type text that is a key of the synonym table. -/
def mappedTag (object_type : String) : Option String :=
  (splitWs (pyLower object_type)).findSome? (fun w => synonyms_to_tag.lookup w)

/-- The fuzzy stage: query the 30-newest window and fuzzy-select, guarded
by the truthiness test on the returned list. -/
def fuzzyStage (env : Env) (object_type : String) : Option GObj :=
  let recent := get_recent_gaze_history env.recentResp
  if recent.isEmpty then none else selectFuzzy object_type recent

/-- The three-stage fallback cascade of navigate_to_previous: exact tag
query, synonym-mapped tag query, fuzzy match over the recent window. -/
def resolve_previous_target (env : Env) (object_type : String) : Option GObj :=
  match query_gaze_history (env.tagResp object_type) with
  | some g => some g
  | none =>
    match mappedTag object_type with
    | some t =>
      match query_gaze_history (env.tagResp t) with
      | some g => some g
      | none => fuzzyStage env object_type
    | none => fuzzyStage env object_type

/-- The valid command vocabulary of the resolver. -/
def valid_drone_commands : List String :=
  ["move_forward", "move_backward", "move_left", "move_right",
   "ascend", "go_up", "descend", "go_down",
   "turn_left", "turn_right", "stop", "navigate_to_previous", "navigate_to_object"]

/-- The body of one iteration of the process_navigation_command loop:
the command at index i together with the lookahead commands[i+1]
(None at the last index).  Returns the commands appended and the errors
recorded by this iteration. -/
def resolveStep (env : Env) (cmd : String) (next? : Option String) :
    List Cmd × List String :=
  if cmd = "navigate_to_previous" then
    match next? with
    | some nxt =>
      let object_type := pyLower nxt
      match resolve_previous_target env object_type with
      | some g =>
        match extract_position g with
        | some object_pos =>
          let nav_pos := calculate_navigation_position object_pos 5
          ([Cmd.navPos nav_pos.x nav_pos.y nav_pos.z object_pos.x object_pos.y object_pos.z], [])
        | none =>
          ([], ["Gaze data for previous " ++ object_type ++ " missing " ++ sq ++ "position" ++ sq])
      | none => ([], ["Could not find previous " ++ object_type ++ " in gaze history"])
    | none => ([Cmd.plain "stop"], [])
  else if cmd = "navigate_to_object" then
    match next? with
    | some object_name =>
      match query_gaze_history_by_name (env.nameResp object_name) with
      | some g =>
        match extract_position g with
        | some object_pos =>
          let nav_pos := calculate_navigation_position object_pos 5
          ([Cmd.navPos nav_pos.x nav_pos.y nav_pos.z object_pos.x object_pos.y object_pos.z], [])
        | none =>
          ([], ["Gaze data for object " ++ sq ++ object_name ++ sq ++ " missing " ++ sq ++ "position" ++ sq])
      | none =>
        ([], ["Could not find object " ++ sq ++ object_name ++ sq ++ " in gaze history"])
    | none => ([Cmd.plain "stop"], [])
  else
    if valid_drone_commands.contains (pyLower cmd) then ([Cmd.plain cmd], [])
    else ([], [])

/-- process_navigation_command: iterate the loop body over the list, each
element seeing the head of its tail as lookahead, concatenating the
emitted commands and the recorded errors in iteration order. -/
def process_navigation_command (env : Env) : List String → List Cmd × List String
  | [] => ([], [])
  | c :: rest =>
    let s := resolveStep env c rest.head?
    let r := process_navigation_command env rest
    (s.1 ++ r.1, s.2 ++ r.2)

/-! ### Heuristic intent inferencer (infer_navigation_from_text) -/

/-- The synonym table of the inferencer, in insertion order. -/
def infer_synonyms : List (String × String) :=
  [("tree", "Tree"), ("person", "Person"), ("human", "Person"),
   ("woman", "Person"), ("man", "Person"), ("male", "Person"),
   ("female", "Person")]

/-- The regex search for a first quoted substring with at least one
non-quote character between the quotes: the captured text, if any. -/
def findQuoted : List Char → Option String
  | [] => none
  | c :: rest =>
    if c = Char.ofNat 34 then
      let run := rest.takeWhile (fun d => d ≠ Char.ofNat 34)
      let after := rest.drop run.length
      if ¬ run.isEmpty ∧ after.head? = some (Char.ofNat 34) then some (String.mk run)
      else findQuoted rest
    else findQuoted rest

/-- The synonym scan shared by the keyword rule and the wayfinding rule:
the first synonym whose space-padded form occurs in the space-padded
lowercased text yields the navigation pair. -/
def inferSynScan (padded : String) : Option (List String) :=
  infer_synonyms.findSome? (fun p =>
    if containsStr padded (" " ++ p.1 ++ " ") then
      some ["navigate_to_previous", p.2]
    else none)

/-- infer_navigation_from_text: quoted object name, then recency keyword
with a synonym, then a generic wayfinding phrase with a synonym,
else None. -/
def infer_navigation_from_text (user_input : String) : Option (List String) :=
  if user_input = "" then none
  else
    let text := pyStrip user_input
    let quoted :=
      match findQuoted text.data with
      | some nm => if pyStrip nm ≠ "" then some ["navigate_to_object", pyStrip nm] else none
      | none => none
    match quoted with
    | some r => some r
    | none =>
      let lower := pyLower text
      let padded := " " ++ lower ++ " "
      let kwHit := ["latest", "last", "previous"].findSome? (fun kw =>
        if containsStr padded (" " ++ kw ++ " ") then inferSynScan padded else none)
      match kwHit with
      | some r => some r
      | none =>
        if containsStr lower "go to" || containsStr lower "navigate to" then
          inferSynScan padded
        else none

/-! ### Command validator (main.py get_drone_instructions) -/

/-- The valid command vocabulary of the validator (the same 13 tokens as
the resolver vocabulary; main.py repeats the list). -/
def valid_commands : List String :=
  ["move_forward", "move_backward", "move_left", "move_right",
   "ascend", "go_up", "descend", "go_down",
   "turn_left", "turn_right", "stop", "navigate_to_previous", "navigate_to_object"]

/-- One iteration of the validation loop over the parsed command array:
keep a vocabulary token lowercased; else keep the stripped token verbatim
when the previously kept token was a parametric command and this is not
the first index; else drop. -/
def validStep (i : Nat) (acc : List String) (cmd : String) : List String :=
  let cmd_lower := pyLower (pyStrip cmd)
  if valid_commands.contains cmd_lower then acc ++ [cmd_lower]
  else if 0 < i ∧ ¬ acc.isEmpty ∧
      (acc.getLast? = some "navigate_to_previous" ∨ acc.getLast? = some "navigate_to_object") then
    acc ++ [pyStrip cmd]
  else acc

/-- The validation loop over the enumerated command array. -/
def validateLoop (commands : List String) : List String :=
  commands.enum.foldl (fun acc p => validStep p.1 acc p.2) []

/-- The outcome of the model call and of the JSON parse of its stripped
text, as observed by get_drone_instructions: a falsy response, a JSON
array of strings, a JSON scalar string (wrapped into a singleton), text
that fails JSON parsing, or an exception raised while processing
(e.g. non-string array elements). -/
inductive ModelOutcome where
  | failure
  | jsonArr (commands : List String)
  | jsonScalar (c : String)
  | notJson (raw : String)
  | exn
  deriving DecidableEq

/-- get_drone_instructions: validate the model outcome into a command
list, falling back to the singleton stop list on every failure mode. -/
def get_drone_instructions (m : ModelOutcome) : List String :=
  match m with
  | .failure => ["stop"]
  | .exn => ["stop"]
  | .jsonArr commands =>
    let v := validateLoop commands
    if v.isEmpty then ["stop"] else v
  | .jsonScalar c =>
    let v := validateLoop [c]
    if v.isEmpty then ["stop"] else v
  | .notJson raw =>
    let command := pyLower (pyStrip raw)
    if valid_commands.contains command then [command] else ["stop"]

/-! ### Dispatch to the agent endpoint (main.py send_to_unity) -/

/-- Transport outcome of the single POST to the agent endpoint. -/
inductive PostR where
  | ok (status : Nat)
  | connError
  | timeoutErr
  | exn
  deriving DecidableEq

/-- Oracle for the agent endpoint: the transport outcome of posting a
given payload. -/
structure AgentEnv where
  post : List Cmd → PostR

/-- send_to_unity: one POST carrying the whole command list as a single
JSON payload; True exactly when the response status is 200.  The second
component records the submissions made (always the one batch). -/
def send_to_unity (aenv : AgentEnv) (commands : List Cmd) : Bool × List (List Cmd) :=
  (match aenv.post commands with
   | .ok status => status == 200
   | .connError => false
   | .timeoutErr => false
   | .exn => false,
   [commands])

/-! ### The process_command pipeline (http_service.py) -/

/-- Does the command list contain a navigation-intent command? -/
def hasNav (commands : List String) : Bool :=
  commands.contains "navigate_to_previous" || commands.contains "navigate_to_object"

/-- The heuristic fallback stage of process_command: keep the model
commands when they already contain a navigation command; otherwise use
the inferred list when the inferencer returns a truthy one. -/
def applyInference (user_input : String) (commands : List String) : List String :=
  if hasNav commands then commands
  else
    match infer_navigation_from_text user_input with
    | some inferred => if inferred.isEmpty then commands else inferred
    | none => commands

/-- The structured result process_command returns to its caller. -/
inductive Resp where
  | notFound (err : String)
  | success (commands : List Cmd)
  | sendFailed
  | noCommands
  deriving DecidableEq

/-- The process_command flow after the model call: heuristic inference,
the navigation resolver with its not_found branch, then the dispatch.
The second component records the payloads posted to the agent endpoint. -/
def process_command_pipeline (env : Env) (aenv : AgentEnv) (user_input : String)
    (modelCommands : List String) : Resp × List (List Cmd) :=
  let commands := applyInference user_input modelCommands
  if commands.isEmpty then (.noCommands, [])
  else if hasNav commands then
    let pr := process_navigation_command env commands
    if ¬ pr.2.isEmpty ∧ pr.1.isEmpty then (.notFound (pr.2.headD ""), [])
    else
      let sr := send_to_unity aenv pr.1
      (if sr.1 then .success pr.1 else .sendFailed, sr.2)
  else
    let sent := commands.map Cmd.plain
    let sr := send_to_unity aenv sent
    (if sr.1 then .success sent else .sendFailed, sr.2)

/-! ### Concrete oracles used by witnesses and counterexamples -/

/-- A reachable history service that has no match for anything: every
query answers HTTP 200 with found=false, the recent window answers
found=false. -/
def envNoMatch : Env :=
  { tagResp := fun _ => .ok .jsonNotFound
    nameResp := fun _ => .ok .jsonNotFound
    recentResp := .ok false [] }

/-- An unreachable history service: every query raises a requests
exception (connection failure or timeout). -/
def envDown : Env :=
  { tagResp := fun _ => .exn
    nameResp := fun _ => .exn
    recentResp := .exn }

/-- A history service knowing one object, named Oak Tree 3, at
position (2, 0, 5). -/
def envOak : Env :=
  { tagResp := fun _ => .ok .jsonNotFound
    nameResp := fun n =>
      if n = "Oak Tree 3" then .ok (.jsonObj ⟨"Oak Tree 3", "Tree", some ⟨2, 0, 5⟩⟩)
      else .ok .jsonNotFound
    recentResp := .ok false [] }

/-- An agent endpoint that acknowledges every submission with HTTP 200. -/
def aenvOk : AgentEnv := { post := fun _ => .ok 200 }

/-! ### The fuzzy selection loop computes the first maximum -/

/-- Characterization of the best/best_score loop: starting from best
score `s`, the loop keeps the accumulator when no candidate beats `s`,
and otherwise ends at the maximum score together with the first candidate
attaining it. -/
theorem bestLoop_eq (ot : String) (os : List GObj) :
    ∀ (b : Option GObj) (s : Nat),
      bestLoop ot os (b, s) =
        if maxScore ot os ≤ s then (b, s)
        else (os.find? (fun o => fuzzyScore ot o == maxScore ot os), maxScore ot os) := by
  induction os with
  | nil => intro b s; simp [bestLoop, maxScore]
  | cons o os ih =>
    intro b s
    simp only [bestLoop, maxScore]
    by_cases h : s < fuzzyScore ot o
    · rw [if_pos h, ih (some o) (fuzzyScore ot o)]
      by_cases h2 : maxScore ot os ≤ fuzzyScore ot o
      · rw [if_pos h2, if_neg (by omega)]
        have hmax : max (fuzzyScore ot o) (maxScore ot os) = fuzzyScore ot o := by omega
        rw [hmax, List.find?_cons_of_pos _ (by simp)]
      · rw [if_neg h2, if_neg (by omega)]
        have hmax : max (fuzzyScore ot o) (maxScore ot os) = maxScore ot os := by omega
        rw [hmax, List.find?_cons_of_neg _ (by simp; omega)]
    · rw [if_neg h, ih b s]
      by_cases h2 : maxScore ot os ≤ s
      · rw [if_pos h2, if_pos (by omega)]
      · rw [if_neg h2, if_neg (by omega)]
        have hmax : max (fuzzyScore ot o) (maxScore ot os) = maxScore ot os := by omega
        rw [hmax, List.find?_cons_of_neg _ (by simp; omega)]

/-- Claim C3 (confirmed): in the fuzzy stage, each candidate scores 3 when
the lowercased type text is a substring of its lowercased name, plus 2
when a substring of its lowercased tag, plus 1 per whitespace token of the
type text contained in the name; the stage selects the first candidate of
the newest-first window attaining the maximum score, and selects nothing
whenever the maximum score is below 3.  (`ot` stands for the lowercased
type text, as passed by the resolver.) -/
theorem claim3_fuzzy_scoring (ot : String) (recent : List GObj) :
    (∀ o, fuzzyScore ot o =
        (if containsStr (pyLower o.name) ot then 3 else 0) +
          (if containsStr (pyLower o.tag) ot then 2 else 0) +
          ((splitWs ot).filter (fun t => containsStr (pyLower o.name) t)).length) ∧
    (maxScore ot recent < 3 → selectFuzzy ot recent = none) ∧
    (3 ≤ maxScore ot recent →
      selectFuzzy ot recent =
        recent.find? (fun o => fuzzyScore ot o == maxScore ot recent)) := by
  refine ⟨fun o => rfl, ?_, ?_⟩
  · intro h
    unfold selectFuzzy
    rw [bestLoop_eq]
    by_cases h0 : maxScore ot recent ≤ 0
    · rw [if_pos h0]
      simp
    · rw [if_neg h0]
      dsimp only
      rw [if_neg (by omega)]
  · intro h
    unfold selectFuzzy
    rw [bestLoop_eq, if_neg (by omega : ¬ maxScore ot recent ≤ 0)]
    dsimp only
    rw [if_pos h]

/-- Witness for C3 at a concrete window where the maximum score is 6. -/
theorem claim3_witness :
    3 ≤ maxScore "tree" [⟨"Rock", "Rock", none⟩, ⟨"Big Tree", "Tree", some ⟨1, 1, 1⟩⟩] ∧
    selectFuzzy "tree" [⟨"Rock", "Rock", none⟩, ⟨"Big Tree", "Tree", some ⟨1, 1, 1⟩⟩] =
      [⟨"Rock", "Rock", none⟩, (⟨"Big Tree", "Tree", some ⟨1, 1, 1⟩⟩ : GObj)].find?
        (fun o => fuzzyScore "tree" o ==
          maxScore "tree" [⟨"Rock", "Rock", none⟩, ⟨"Big Tree", "Tree", some ⟨1, 1, 1⟩⟩]) :=
  ⟨by decide, (claim3_fuzzy_scoring "tree" _).2.2 (by decide)⟩

/-! ### The command validator safe fallback -/

/-- Claim C4 (confirmed): for every malformed, empty or unrecognized model
output — a failed model call, an exception while processing, a parsed
array that validates to the empty list (including the empty array and the
all-tokens-discarded case), or non-JSON text that is not a single
canonical command — get_drone_instructions returns the singleton stop
list; and it never returns an empty list. -/
theorem claim4_validator_fallback :
    (∀ m, get_drone_instructions m ≠ []) ∧
    get_drone_instructions .failure = ["stop"] ∧
    get_drone_instructions .exn = ["stop"] ∧
    (∀ commands, validateLoop commands = [] →
      get_drone_instructions (.jsonArr commands) = ["stop"]) ∧
    (∀ c, validateLoop [c] = [] → get_drone_instructions (.jsonScalar c) = ["stop"]) ∧
    (∀ raw, pyLower (pyStrip raw) ∉ valid_commands →
      get_drone_instructions (.notJson raw) = ["stop"]) := by
  refine ⟨?_, rfl, rfl, ?_, ?_, ?_⟩
  · intro m
    cases m with
    | failure => simp [get_drone_instructions]
    | exn => simp [get_drone_instructions]
    | jsonArr commands =>
      simp only [get_drone_instructions]
      by_cases hv : (validateLoop commands).isEmpty
      · rw [if_pos hv]; simp
      · rw [if_neg hv]
        simpa using (by simpa using hv : (validateLoop commands).isEmpty = false)
    | jsonScalar c =>
      simp only [get_drone_instructions]
      by_cases hv : (validateLoop [c]).isEmpty
      · rw [if_pos hv]; simp
      · rw [if_neg hv]
        simpa using (by simpa using hv : (validateLoop [c]).isEmpty = false)
    | notJson raw =>
      simp only [get_drone_instructions]
      by_cases hr : valid_commands.contains (pyLower (pyStrip raw))
      · rw [if_pos hr]; simp
      · rw [if_neg hr]; simp
  · intro commands h
    simp [get_drone_instructions, h]
  · intro c h
    simp [get_drone_instructions, h]
  · intro raw h
    simp only [get_drone_instructions]
    rw [if_neg (by simpa using h)]

/-- Witness for C4: an array with one unrecognized token validates to the
empty list, so the validator returns the stop singleton. -/
theorem claim4_witness :
    get_drone_instructions (.jsonArr ["garbage"]) = ["stop"] :=
  claim4_validator_fallback.2.2.2.1 ["garbage"] (by decide)

/-! ### The heuristic inferencer never overrides a model navigation intent -/

/-- Claim C9 (confirmed): the heuristic inferencer is consulted only when
the validated command list contains neither parametric navigation command;
when the model output already contains one the pipeline keeps that list
unchanged, and any change of list implies the original had no navigation
intent. -/
theorem claim9_inference_gate (user_input : String) (commands : List String) :
    (hasNav commands = true → applyInference user_input commands = commands) ∧
    (hasNav commands = false →
      applyInference user_input commands =
        match infer_navigation_from_text user_input with
        | some inferred => if inferred.isEmpty then commands else inferred
        | none => commands) ∧
    (applyInference user_input commands ≠ commands → hasNav commands = false) := by
  refine ⟨fun h => by simp [applyInference, h], fun h => by simp [applyInference, h], ?_⟩
  intro h
  by_cases hn : hasNav commands
  · exact absurd (by simp [applyInference, hn]) h
  · simpa using hn

/-- Witness for C9: a model list already containing navigate_to_previous
is kept even though the utterance would infer a different navigation. -/
theorem claim9_witness :
    applyInference "go to the last tree" ["navigate_to_previous", "Person"] =
      ["navigate_to_previous", "Person"] :=
  (claim9_inference_gate "go to the last tree" ["navigate_to_previous", "Person"]).1 (by decide)

/-! ### Dispatch submits one batch, not one command at a time -/

/-- Claim C1 (corrected), counterexample: with an agent endpoint that
acknowledges everything and the two-command resolved list
[move_forward, ascend], send_to_unity performs exactly one submission
(the whole list in one POST), not one submission per command as the claim
requires (which would be two). -/
theorem claim1_counterexample :
    (send_to_unity aenvOk [Cmd.plain "move_forward", Cmd.plain "ascend"]).2.length = 1 ∧
    (send_to_unity aenvOk [Cmd.plain "move_forward", Cmd.plain "ascend"]).2.length ≠ 2 := by
  constructor
  · rfl
  · decide

/-- Claim C1 (corrected), amended: for every resolved command list,
Dispatch submits the entire list to the agent endpoint as a single batch
POST preserving list order within the payload — exactly one submission
regardless of list length — and returns overall success iff that single
submission is acknowledged with HTTP status 200. -/
theorem claim1_amended (aenv : AgentEnv) (commands : List Cmd) :
    (send_to_unity aenv commands).2 = [commands] ∧
    ((send_to_unity aenv commands).1 = true ↔ aenv.post commands = PostR.ok 200) := by
  refine ⟨rfl, ?_⟩
  cases h : aenv.post commands <;> simp [send_to_unity, h]

/-! ### A lone parametric command resolves to stop -/

/-- Claim C10 (confirmed): when navigate_to_previous or navigate_to_object
is the last element of the resolver input (no following argument token),
that step appends the literal stop command and records no error; hence a
lone parametric command resolves to the dispatchable stop singleton with
no error (not a target-not-found condition), and for any input ending in a
parametric command the output ends in the stop command. -/
theorem claim10_lone_parametric :
    (∀ env, resolveStep env "navigate_to_previous" none = ([Cmd.plain "stop"], [])) ∧
    (∀ env, resolveStep env "navigate_to_object" none = ([Cmd.plain "stop"], [])) ∧
    (∀ env, process_navigation_command env ["navigate_to_previous"] = ([Cmd.plain "stop"], [])) ∧
    (∀ env, process_navigation_command env ["navigate_to_object"] = ([Cmd.plain "stop"], [])) ∧
    (∀ env commands c, (c = "navigate_to_previous" ∨ c = "navigate_to_object") →
      (process_navigation_command env (commands ++ [c])).1 ≠ [] ∧
      (process_navigation_command env (commands ++ [c])).1.getLast? =
        some (Cmd.plain "stop")) := by
  refine ⟨fun env => rfl, fun env => rfl, fun env => rfl, fun env => rfl, ?_⟩
  intro env commands c hc
  induction commands with
  | nil =>
    have hstep : resolveStep env c none = ([Cmd.plain "stop"], []) := by
      rcases hc with h | h <;> subst h <;> rfl
    simp [process_navigation_command, hstep]
  | cons a rest ih =>
    simp only [List.cons_append, process_navigation_command, List.append_eq]
    constructor
    · intro hcontra
      rcases (by simpa [List.append_eq_nil] using hcontra :
        (resolveStep env a (rest ++ [c]).head?).1 = [] ∧
          (process_navigation_command env (rest ++ [c])).1 = []) with ⟨_, h2⟩
      exact ih.1 h2
    · rw [List.getLast?_append_of_ne_nil _ ih.1]
      exact ih.2

/-- Witness for C10: a list ending in a lone navigate_to_previous yields
an output ending in the stop command. -/
theorem claim10_witness :
    (process_navigation_command envNoMatch (["move_forward"] ++ ["navigate_to_previous"])).1 ≠ [] ∧
    (process_navigation_command envNoMatch
        (["move_forward"] ++ ["navigate_to_previous"])).1.getLast? =
      some (Cmd.plain "stop") :=
  claim10_lone_parametric.2.2.2.2 envNoMatch ["move_forward"] "navigate_to_previous" (Or.inl rfl)

/-! ### Shape of the elements emitted by the resolver -/

/-- Every plain element one loop iteration emits has a lowercase form in
the resolver vocabulary, and is never the exact token of a parametric
command. -/
theorem resolveStep_plain_mem (env : Env) (cmd : String) (n : Option String) (s : String)
    (h : Cmd.plain s ∈ (resolveStep env cmd n).1) :
    pyLower s ∈ valid_drone_commands ∧
      s ≠ "navigate_to_previous" ∧ s ≠ "navigate_to_object" := by
  unfold resolveStep at h
  by_cases h1 : cmd = "navigate_to_previous"
  · rw [if_pos h1] at h
    cases n with
    | none =>
      simp at h
      subst h
      exact ⟨by decide, by decide, by decide⟩
    | some nxt =>
      rcases hg : resolve_previous_target env (pyLower nxt) with _ | g
      · simp [hg] at h
      · rcases hp : extract_position g with _ | p
        · simp [hg, hp] at h
        · simp [hg, hp] at h
  · rw [if_neg h1] at h
    by_cases h2 : cmd = "navigate_to_object"
    · rw [if_pos h2] at h
      cases n with
      | none =>
        simp at h
        subst h
        exact ⟨by decide, by decide, by decide⟩
      | some nm =>
        rcases hg : query_gaze_history_by_name (env.nameResp nm) with _ | g
        · simp [hg] at h
        · rcases hp : extract_position g with _ | p
          · simp [hg, hp] at h
          · simp [hg, hp] at h
    · rw [if_neg h2] at h
      by_cases h3 : valid_drone_commands.contains (pyLower cmd) = true
      · rw [if_pos h3] at h
        simp at h
        subst h
        exact ⟨by simpa using h3, h1, h2⟩
      · rw [if_neg h3] at h
        simp at h

/-- Every plain element the resolver emits has a lowercase form in the
resolver vocabulary, and is never the exact token of a parametric
command. -/
theorem resolve_plain_mem (env : Env) :
    ∀ (commands : List String) (s : String),
      Cmd.plain s ∈ (process_navigation_command env commands).1 →
      pyLower s ∈ valid_drone_commands ∧
        s ≠ "navigate_to_previous" ∧ s ≠ "navigate_to_object" := by
  intro commands
  induction commands with
  | nil => intro s h; simp [process_navigation_command] at h
  | cons c rest ih =>
    intro s h
    simp only [process_navigation_command] at h
    rcases List.mem_append.mp h with h | h
    · exact resolveStep_plain_mem env c rest.head? s h
    · exact ih s h

/-- Every navigate_to_position element one loop iteration emits carries
the standoff shape: target x is object x plus 5, same y and z. -/
theorem resolveStep_navPos_mem (env : Env) (cmd : String) (n : Option String)
    (a b c d e f : ℚ) (h : Cmd.navPos a b c d e f ∈ (resolveStep env cmd n).1) :
    a = d + 5 ∧ b = e ∧ c = f := by
  unfold resolveStep at h
  by_cases h1 : cmd = "navigate_to_previous"
  · rw [if_pos h1] at h
    cases n with
    | none => simp at h
    | some nxt =>
      rcases hg : resolve_previous_target env (pyLower nxt) with _ | g
      · simp [hg] at h
      · rcases hp : extract_position g with _ | p
        · simp [hg, hp] at h
        · simp [hg, hp, calculate_navigation_position] at h
          obtain ⟨ha, hb, hc, hd, he, hf⟩ := h
          subst ha; subst hb; subst hc; subst hd; subst he; subst hf
          exact ⟨rfl, rfl, rfl⟩
  · rw [if_neg h1] at h
    by_cases h2 : cmd = "navigate_to_object"
    · rw [if_pos h2] at h
      cases n with
      | none => simp at h
      | some nm =>
        rcases hg : query_gaze_history_by_name (env.nameResp nm) with _ | g
        · simp [hg] at h
        · rcases hp : extract_position g with _ | p
          · simp [hg, hp] at h
          · simp [hg, hp, calculate_navigation_position] at h
            obtain ⟨ha, hb, hc, hd, he, hf⟩ := h
            subst ha; subst hb; subst hc; subst hd; subst he; subst hf
            exact ⟨rfl, rfl, rfl⟩
    · rw [if_neg h2] at h
      by_cases h3 : valid_drone_commands.contains (pyLower cmd) = true
      · rw [if_pos h3] at h
        simp at h
      · rw [if_neg h3] at h
        simp at h

/-- Every navigate_to_position element the resolver emits carries the
standoff shape. -/
theorem resolve_navPos_mem (env : Env) :
    ∀ (commands : List String) (a b c d e f : ℚ),
      Cmd.navPos a b c d e f ∈ (process_navigation_command env commands).1 →
      a = d + 5 ∧ b = e ∧ c = f := by
  intro commands
  induction commands with
  | nil => intro a b c d e f h; simp [process_navigation_command] at h
  | cons cc rest ih =>
    intro a b c d e f h
    simp only [process_navigation_command] at h
    rcases List.mem_append.mp h with h | h
    · exact resolveStep_navPos_mem env cc rest.head? a b c d e f h
    · exact ih a b c d e f h

/-- Claim C5 (corrected), counterexample: on the input list
[navigate_to_object, Stop] with a history that has no match, the resolver
emits the element Stop — the argument token verbatim — which is not a
canonical command token (the canonical vocabulary is lowercase) and not a
navigate_to_position command, contradicting the claimed invariant. -/
theorem claim5_counterexample :
    (process_navigation_command envNoMatch ["navigate_to_object", "Stop"]).1 =
      [Cmd.plain "Stop"] ∧
    "Stop" ∉ valid_drone_commands := by
  constructor
  · rfl
  · decide

/-- Claim C5 (corrected), amended: every plain element the resolver emits
downstream is a string whose lowercase form is in the canonical
vocabulary (it is emitted verbatim, so a case variant of a vocabulary
word such as an argument spelling Stop can appear), and the exact tokens
navigate_to_previous and navigate_to_object never appear; all other
emitted elements are navigate_to_position commands. -/
theorem claim5_amended (env : Env) (commands : List String) (s : String)
    (h : Cmd.plain s ∈ (process_navigation_command env commands).1) :
    pyLower s ∈ valid_drone_commands ∧
      s ≠ "navigate_to_previous" ∧ s ≠ "navigate_to_object" :=
  resolve_plain_mem env commands s h

/-- Witness for C5 at a pass-through command. -/
theorem claim5_witness :
    pyLower "move_forward" ∈ valid_drone_commands ∧
      "move_forward" ≠ "navigate_to_previous" ∧ "move_forward" ≠ "navigate_to_object" :=
  claim5_amended envNoMatch ["move_forward"] "move_forward" (by decide)

/-- Claim C6 (corrected), counterexample: on input
[navigate_to_previous, stop] with a no-match history, the resolver treats
stop as the argument token (the recorded error names it), yet also checks
it against the vocabulary in the pass-through branch and emits it as a
standalone stop command. -/
theorem claim6_counterexample :
    process_navigation_command envNoMatch ["navigate_to_previous", "stop"] =
      ([Cmd.plain "stop"], ["Could not find previous stop in gaze history"]) := by
  rfl

/-- Claim C6 (corrected), amended: the resolver does re-check every
element, including the argument token following a parametric command,
against the canonical vocabulary in its pass-through branch, so an
argument that spells a vocabulary word (such as stop) is emitted as a
standalone command; an argument whose lowercase form is not in the
vocabulary never appears in the resolver output. -/
theorem claim6_amended (env : Env) (commands : List String) (arg : String)
    (h : pyLower arg ∉ valid_drone_commands) :
    Cmd.plain arg ∉ (process_navigation_command env commands).1 := by
  intro hmem
  exact h (resolve_plain_mem env commands arg hmem).1

/-- Witness for C6: an argument that is not a vocabulary word never
appears in the output. -/
theorem claim6_witness :
    Cmd.plain "zebra" ∉
      (process_navigation_command envNoMatch ["navigate_to_previous", "zebra"]).1 :=
  claim6_amended envNoMatch ["navigate_to_previous", "zebra"] "zebra" (by decide)

/-- Claim C7 (confirmed): the navigation target is the object position
offset by the fixed 5.0-unit standoff along the x axis at the same
height: calculate_navigation_position adds 5 to x and keeps y and z, and
every navigate_to_position command the resolver emits carries exactly the
six fields (x + 5, y, z, x, y, z) for the resolved object position
(x, y, z); a navigation command is only ever emitted with a position,
since the navPos constructor is the only navigation shape and always
carries six numeric fields. -/
theorem claim7_standoff :
    (∀ p : Pos, calculate_navigation_position p 5 = ⟨p.x + 5, p.y, p.z⟩) ∧
    (∀ (env : Env) (commands : List String) (a b c d e f : ℚ),
      Cmd.navPos a b c d e f ∈ (process_navigation_command env commands).1 →
      a = d + 5 ∧ b = e ∧ c = f) :=
  ⟨fun _ => rfl, fun env commands a b c d e f h =>
    resolve_navPos_mem env commands a b c d e f h⟩

/-- Witness for C7: the object named Oak Tree 3 at (2, 0, 5) resolves to
the command with target (7, 0, 5) and object (2, 0, 5). -/
theorem claim7_witness : (7 : ℚ) = 2 + 5 ∧ (0 : ℚ) = 0 ∧ (5 : ℚ) = 5 :=
  claim7_standoff.2 envOak ["navigate_to_object", "Oak Tree 3"] 7 0 5 2 0 5 (by
    have h : (process_navigation_command envOak ["navigate_to_object", "Oak Tree 3"]).1 =
        [Cmd.navPos (2 + 5) 0 5 2 0 5] := rfl
    rw [h, show (2 : ℚ) + 5 = 7 by norm_num]
    exact List.mem_singleton.mpr rfl)

/-! ### Empty resolution is reported as not found -/

/-- hasNav in terms of membership. -/
theorem hasNav_iff (commands : List String) :
    hasNav commands = true ↔
      "navigate_to_previous" ∈ commands ∨ "navigate_to_object" ∈ commands := by
  simp [hasNav]

/-- A loop iteration on a parametric command always contributes either an
emitted command or a recorded error. -/
theorem resolveStep_nav_total (env : Env) (cmd : String) (n : Option String)
    (h : cmd = "navigate_to_previous" ∨ cmd = "navigate_to_object") :
    (resolveStep env cmd n).1 ≠ [] ∨ (resolveStep env cmd n).2 ≠ [] := by
  rcases h with h | h
  · subst h
    cases n with
    | none => left; simp [resolveStep]
    | some nxt =>
      unfold resolveStep
      rw [if_pos rfl]
      rcases hg : resolve_previous_target env (pyLower nxt) with _ | g
      · right; simp [hg]
      · rcases hp : extract_position g with _ | p
        · right; simp [hg, hp]
        · left; simp [hg, hp]
  · subst h
    cases n with
    | none => left; simp [resolveStep]
    | some nm =>
      unfold resolveStep
      rw [if_neg (by decide), if_pos rfl]
      rcases hg : query_gaze_history_by_name (env.nameResp nm) with _ | g
      · right; simp [hg]
      · rcases hp : extract_position g with _ | p
        · right; simp [hg, hp]
        · left; simp [hg, hp]

/-- When the input contains a parametric navigation command and the
resolver emits no command at all, it records at least one error. -/
theorem resolve_errors_nonempty (env : Env) :
    ∀ commands : List String, hasNav commands = true →
      (process_navigation_command env commands).1 = [] →
      (process_navigation_command env commands).2 ≠ [] := by
  intro commands
  induction commands with
  | nil => intro h _; simp [hasNav] at h
  | cons c rest ih =>
    intro h h1
    simp only [process_navigation_command] at h1 ⊢
    rw [List.append_eq_nil] at h1
    by_cases hc : c = "navigate_to_previous" ∨ c = "navigate_to_object"
    · rcases resolveStep_nav_total env c rest.head? hc with h2 | h2
      · exact absurd h1.1 h2
      · intro hcon
        rw [List.append_eq_nil] at hcon
        exact h2 hcon.1
    · push_neg at hc
      have hr : hasNav rest = true := by
        rcases (hasNav_iff (c :: rest)).mp h with hm | hm
        · rcases List.mem_cons.mp hm with he | he
          · exact absurd he.symm hc.1
          · exact (hasNav_iff rest).mpr (Or.inl he)
        · rcases List.mem_cons.mp hm with he | he
          · exact absurd he.symm hc.2
          · exact (hasNav_iff rest).mpr (Or.inr he)
      have h3 := ih hr h1.2
      intro hcon
      rw [List.append_eq_nil] at hcon
      exact h3 hcon.2

/-- The inference stage keeps a list that already has navigation intent. -/
theorem applyInference_nav (user_input : String) (commands : List String)
    (h : hasNav commands = true) : applyInference user_input commands = commands := by
  simp [applyInference, h]

/-- Claim C2 (confirmed): whenever the (non-empty) command list reaching
process_command contains a navigation command and resolution emits no
command (every navigation step failed), at least one error was recorded,
the caller receives the distinct not_found response carrying the first
recorded error message, zero submissions reach the agent endpoint, and
the deprecated estimate-a-position fallback returns nothing for every
input (it is permanently disabled). -/
theorem claim2_not_found (env : Env) (aenv : AgentEnv) (user_input : String)
    (commands : List String) (h : hasNav commands = true)
    (h1 : (process_navigation_command env commands).1 = []) :
    (process_navigation_command env commands).2 ≠ [] ∧
    process_command_pipeline env aenv user_input commands =
      (Resp.notFound ((process_navigation_command env commands).2.headD ""), []) ∧
    (∀ a b, create_estimated_navigation_command a b = none) := by
  have hne : commands ≠ [] := by
    rintro rfl
    simp [hasNav] at h
  have herr := resolve_errors_nonempty env commands h h1
  refine ⟨herr, ?_, fun a b => rfl⟩
  unfold process_command_pipeline
  rw [applyInference_nav user_input commands h]
  rw [if_neg (by simpa using hne)]
  rw [if_pos h]
  rw [if_pos ⟨by simpa using herr, by simpa using h1⟩]

/-- Witness for C2: a navigation command whose target is nowhere in the
history yields the not_found response with the recorded error, and
nothing is posted to the agent. -/
theorem claim2_witness :
    (process_navigation_command envNoMatch ["navigate_to_previous", "Person"]).2 ≠ [] ∧
    process_command_pipeline envNoMatch aenvOk "x" ["navigate_to_previous", "Person"] =
      (Resp.notFound
        ((process_navigation_command envNoMatch ["navigate_to_previous", "Person"]).2.headD ""),
        []) :=
  ⟨(claim2_not_found envNoMatch aenvOk "x" ["navigate_to_previous", "Person"] rfl rfl).1,
   (claim2_not_found envNoMatch aenvOk "x" ["navigate_to_previous", "Person"] rfl rfl).2.1⟩

/-! ### A down history service is indistinguishable from no match -/

/-- With the history service down, the navigate_to_previous cascade
resolves nothing. -/
theorem rpt_down (x : String) : resolve_previous_target envDown x = none := by
  cases hm : mappedTag x <;>
    simp [resolve_previous_target, hm, fuzzyStage, envDown, query_gaze_history,
      get_recent_gaze_history]

/-- With a reachable history service that matches nothing, the
navigate_to_previous cascade resolves nothing. -/
theorem rpt_nomatch (x : String) : resolve_previous_target envNoMatch x = none := by
  cases hm : mappedTag x <;>
    simp [resolve_previous_target, hm, fuzzyStage, envNoMatch, query_gaze_history,
      get_recent_gaze_history]

/-- Each loop iteration behaves identically under a down history service
and under a reachable history service with no match. -/
theorem resolveStep_down_eq (cmd : String) (n : Option String) :
    resolveStep envDown cmd n = resolveStep envNoMatch cmd n := by
  by_cases h1 : cmd = "navigate_to_previous"
  · subst h1
    cases n with
    | none => rfl
    | some nxt =>
      unfold resolveStep
      rw [if_pos rfl, if_pos rfl]
      dsimp only
      rw [rpt_down (pyLower nxt), rpt_nomatch (pyLower nxt)]
  · by_cases h2 : cmd = "navigate_to_object"
    · subst h2
      cases n with
      | none => rfl
      | some nm =>
        unfold resolveStep
        have hno : ¬ ("navigate_to_object" = "navigate_to_previous") := by decide
        rw [if_neg hno, if_neg hno, if_pos rfl, if_pos rfl]
        dsimp only
        rw [show query_gaze_history_by_name (envDown.nameResp nm) = none from rfl,
          show query_gaze_history_by_name (envNoMatch.nameResp nm) = none from rfl]
    · unfold resolveStep
      rw [if_neg h1, if_neg h1, if_neg h2, if_neg h2]

/-- The resolver behaves identically under a down history service and
under a reachable history service with no match. -/
theorem resolve_down_eq (commands : List String) :
    process_navigation_command envDown commands =
      process_navigation_command envNoMatch commands := by
  induction commands with
  | nil => rfl
  | cons c rest ih =>
    simp only [process_navigation_command]
    rw [resolveStep_down_eq c rest.head?, ih]

/-- Claim C8 (corrected), counterexample: with the history service
unreachable (every query raises a connection error or timeout), the
caller receives exactly the same not_found response, with the same
message naming only the missing target, as when the history service is
reachable and has no match — not a distinct labeled failure identifying
the history upstream. -/
theorem claim8_counterexample :
    process_command_pipeline envDown aenvOk "x" ["navigate_to_previous", "Person"] =
      (Resp.notFound "Could not find previous person in gaze history", []) ∧
    process_command_pipeline envNoMatch aenvOk "x" ["navigate_to_previous", "Person"] =
      (Resp.notFound "Could not find previous person in gaze history", []) := by
  exact ⟨rfl, rfl⟩

/-- Claim C8 (corrected), amended: when the object-history service is
unreachable or times out, each query helper swallows the transport error
(it is only logged) and returns the very not-found outcome it returns for
a reachable history with no match, so the whole pipeline produces
identical responses in the two situations; the caller receives the plain
not_found condition, not a distinct failure labeled with the history
upstream. -/
theorem claim8_amended :
    query_gaze_history TagResp.exn = none ∧
    query_gaze_history (TagResp.ok Body.jsonNotFound) = none ∧
    query_gaze_history_by_name TagResp.exn = none ∧
    get_recent_gaze_history RecentResp.exn = [] ∧
    get_recent_gaze_history (RecentResp.ok false []) = [] ∧
    (∀ (aenv : AgentEnv) (user_input : String) (commands : List String),
      process_command_pipeline envDown aenv user_input commands =
        process_command_pipeline envNoMatch aenv user_input commands) := by
  refine ⟨rfl, rfl, rfl, rfl, rfl, ?_⟩
  intro aenv user_input commands
  unfold process_command_pipeline
  dsimp only
  rw [resolve_down_eq (applyInference user_input commands)]

end DroneSim
